import Mathlib

/-!
Verification of the batching accumulator, flush engine and time-bounded
receive session of the GCP log-worker (`src/consumers/gcpconsumer.go`).

The Go code is shallowly embedded: pure control flow becomes Lean
functions, and the external collaborators (the buffered writer over the
sink file, the filesystem, the pub/sub client and its receive loop) are
modelled by explicit environments recording which external calls succeed.
-/

namespace LogWorker

/-! ### Data model, operations and environments (the embedding) -/

/-- Result of `msg.Ack()` / `msg.Nack()`: each processed message receives
exactly one of the two. -/
inductive Outcome
  | ack
  | nack
  deriving DecidableEq, Repr

/-- A pub/sub message: the core only reads its raw payload bytes
(`msg.Data`, modelled as a `String`). -/
structure Message where
  data : String
  deriving DecidableEq, Repr

/-- Model of the sink: a `bufio.Writer` over the opened log file.
`ok n` is the environment of the external writer: whether the n-th
`WriteString` call on this writer succeeds.  `calls` counts `WriteString`
calls made so far, `buf` collects the bytes accepted by successful calls,
and `flushed` counts calls to the writer's `Flush`
(flush-to-stable-storage). -/
structure Writer where
  ok : Nat → Bool
  calls : Nat
  buf : String
  flushed : Nat

/-- `writer.WriteString(s)`: the call is attempted unconditionally; the
environment decides success.  Returns the new writer state and whether the
write succeeded (`err == nil` in Go). -/
def writeString (w : Writer) (s : String) : Writer × Bool :=
  if w.ok w.calls then
    ({ w with calls := w.calls + 1, buf := w.buf ++ s }, true)
  else
    ({ w with calls := w.calls + 1 }, false)

/-- `writer.Flush()`: pushes the buffer to stable storage (recorded as a
count; the code ignores its error). -/
def writerFlush (w : Writer) : Writer :=
  { w with flushed := w.flushed + 1 }

/-- The batch slice `[]*pubsub.Message`: its elements in order, together
with its capacity reservation (Go slice `cap`). -/
structure Batch where
  data : List Message
  cap : Nat

/-- `make([]*pubsub.Message, 0, c)`: empty slice with capacity `c`. -/
def mkBatch (c : Nat) : Batch :=
  { data := [], cap := c }

/-- `append(batch, msg)`: Go's `append` grows the capacity at least to the
new length when the reservation is exhausted (the exact growth factor is
implementation-defined and never observed by this code). -/
def batchAppend (b : Batch) (m : Message) : Batch :=
  { data := b.data ++ [m], cap := max b.cap (b.data.length + 1) }

/-- The `workerinfo` JSON section.  `Batchsize` is a `float32` in Go but
is always converted through `int(...)` before use and the configuration
documents it as an integer, so it is modelled as a `Nat`; `Maxwaittime` is
a raw `time.Duration` number taken from the config. -/
structure WorkerInfo where
  Message_log_path : String
  Worker_log_path : String
  Batchsize : Nat
  Maxwaittime : Int
  deriving DecidableEq, Repr

/-- The `GCPInfo` struct: the JSON-visible fields, the worker config, the
private batch and the buffered writer (nil in Go until `Consume` installs
one; modelled by an inert initial writer). -/
structure GCPInfo where
  Project : String
  Topic : String
  Subscription : String
  Keyfile : String
  Worker : WorkerInfo
  batch : Batch
  writer : Writer

/-- The loop body of `Flush`: iterate the batch in order; for each message
write `string(msg.Data) + "\n"`; `Ack` on success, `Nack` on failure, and
continue with the next message either way.  Returns the writer after all
writes and the per-message outcomes in batch order. -/
def flushLoop (w : Writer) : List Message → Writer × List (Message × Outcome)
  | [] => (w, [])
  | m :: ms =>
    let p := writeString w (m.data ++ "\n")
    let r := flushLoop p.1 ms
    (r.1, (m, if p.2 then Outcome.ack else Outcome.nack) :: r.2)

/-- `func (gcpinfo *GCPInfo) Flush()`: run the write/ack/nack loop over
the batch, flush the writer's buffer once, then reset the batch to
`make([]*pubsub.Message, 0, int(gcpinfo.Worker.Batchsize))`.  Returns the
new state and the ack/nack outcomes issued (side effects in Go). -/
def Flush (g : GCPInfo) : GCPInfo × List (Message × Outcome) :=
  let r := flushLoop g.writer g.batch.data
  ({ g with writer := writerFlush r.1,
            batch := mkBatch g.Worker.Batchsize }, r.2)

/-- The receive handler registered in `Consume` (body of the callback
passed to `Subscription.Receive`, run under `gcpinfo.mu`): append the
message to the batch, and if `len(gcpinfo.batch) > int(Batchsize)` after
the append, call `Flush`. -/
def consumeStep (g : GCPInfo) (m : Message) : GCPInfo × List (Message × Outcome) :=
  let g2 := { g with batch := batchAppend g.batch m }
  if g2.batch.data.length > g2.Worker.Batchsize then
    Flush g2
  else
    (g2, [])

/-- Filesystem model: the set of existing directories and files. -/
structure FS where
  dirs : List String
  files : List String
  deriving DecidableEq, Repr

/-- Error strings of `NewGCPclient` and `CreateMessageLogFiles`. -/
def errReadConfig : String := "ERROR: Unable to read the json file"

def errUnmarshal : String :=
  "ERROR: Unable to unmarshal config file contents. Check if valid json or if some parameter missing"

def errCreateLogFiles : String := "ERROR: Unable to create message log files. Check permissions"

def errMkdir : String := "Error: Unable to create target log files path"

def errCreateFile : String := "Error: Unable to create target log file"

/-- Error strings of `Consume`. -/
def errPubsubClient : String :=
  "ERROR: Unable to create a pub/sub client. Is the credentials file exported?"

def errOpenSink : String := "Unable to Open events output log file"

def errReceive : String :=
  "ERROR:error to receive messages, is the pub/sub up and does the user logmonitor has view permissions?"

/-- `func CreateMessageLogFiles(logpath, filename string) error`:
`os.MkdirAll(logpath, 0744)`, then if `logpath + "/" + filename + ".log"`
does not exist, `os.Create` it.  `mkdirOk` and `createOk` are the
environment of the two filesystem calls. -/
def CreateMessageLogFiles (fs : FS) (logpath filename : String)
    (mkdirOk createOk : Bool) : Except String FS :=
  if !mkdirOk then
    Except.error errMkdir
  else
    let path := logpath ++ "/" ++ filename ++ ".log"
    if path ∈ fs.files then
      Except.ok { fs with dirs := logpath :: fs.dirs }
    else if createOk then
      Except.ok { fs with dirs := logpath :: fs.dirs, files := path :: fs.files }
    else
      Except.error errCreateFile

/-- The JSON-decoded configuration (what `json.Unmarshal` produces into
the fresh `GCPInfo` when the content is valid). -/
structure GCPConfig where
  Project : String
  Topic : String
  Subscription : String
  Keyfile : String
  Message_log_path : String
  Worker_log_path : String
  Batchsize : Nat
  Maxwaittime : Int
  deriving DecidableEq, Repr

/-- Environment of `NewGCPclient`: the result of `ioutil.ReadFile`, the
result of `json.Unmarshal` on that content, the filesystem, and the
outcomes of the two calls inside `CreateMessageLogFiles`. -/
structure NewClientEnv where
  content : Option String
  parsed : Option GCPConfig
  fs : FS
  mkdirOk : Bool
  createOk : Bool

/-- Result of `NewGCPclient`: the `(*GCPInfo, error)` pair plus the
filesystem after any files it created. -/
structure NewClientResult where
  client : Option GCPInfo
  err : Option String
  fs : FS

/-- A writer value standing for the nil `writer` field before `Consume`
installs a real one. -/
def nilWriter : Writer :=
  { ok := fun _ => true, calls := 0, buf := "", flushed := 0 }

/-- `func NewGCPclient(configfile string) (*GCPInfo, error)`: read and
unmarshal the config, create the message log file, then build the batch
with `make([]*pubsub.Message, 0, int(gcpinfo.Worker.Batchsize))` and only
AFTER that apply the defaults `Batchsize = 3` and `Maxwaittime = 10` when
the configured values are zero (source order: line 85 before lines
89-96). -/
def NewGCPclient (env : NewClientEnv) : NewClientResult :=
  match env.content with
  | none => { client := none, err := some errReadConfig, fs := env.fs }
  | some _ =>
    match env.parsed with
    | none => { client := none, err := some errUnmarshal, fs := env.fs }
    | some cfg =>
      match CreateMessageLogFiles env.fs cfg.Message_log_path cfg.Subscription
          env.mkdirOk env.createOk with
      | Except.error _ =>
        { client := none, err := some errCreateLogFiles, fs := env.fs }
      | Except.ok fs2 =>
        let batch := mkBatch cfg.Batchsize
        let bs := if cfg.Batchsize = 0 then 3 else cfg.Batchsize
        let mw := if cfg.Maxwaittime = 0 then 10 else cfg.Maxwaittime
        let wlp := if cfg.Worker_log_path = "" then "/tmp/" else cfg.Worker_log_path
        { client := some
            { Project := cfg.Project
              Topic := cfg.Topic
              Subscription := cfg.Subscription
              Keyfile := cfg.Keyfile
              Worker :=
                { Message_log_path := cfg.Message_log_path
                  Worker_log_path := wlp
                  Batchsize := bs
                  Maxwaittime := mw }
              batch := batch
              writer := nilWriter }
          err := none
          fs := fs2 }

/-- The sink file path opened by `Consume`:
`gcpinfo.Worker.Message_log_path + "/" + gcpinfo.Subscription + ".log"`. -/
def sinkPath (g : GCPInfo) : String :=
  g.Worker.Message_log_path ++ "/" ++ g.Subscription ++ ".log"

/-- `os.OpenFile(path, os.O_WRONLY|os.O_APPEND, 0666)`: the flag set has
no `O_CREATE`, so the open succeeds if and only if the file already
exists. -/
def openFileWronlyAppend (files : List String) (path : String) : Option Unit :=
  if path ∈ files then some () else none

/-- `time.Minute` in nanoseconds (`time.Duration` units). -/
def minuteNs : Int := 60000000000

/-- Environment of `Consume`: whether `pubsub.NewClient` succeeds, the
per-call write oracle for the fresh `bufio.Writer`, the existing files,
the subscription's deliveries as (arrival time, message) pairs, whether
`Receive` reports an error after the loop ends, and the wall-clock time at
which `context.WithTimeout` is taken. -/
structure ConsumeEnv where
  clientOk : Bool
  writeOk : Nat → Bool
  files : List String
  arrivals : List (Int × Message)
  receiveErr : Bool
  now : Int

/-- Result of `Consume`: the returned error, the messages for which the
receive handler was invoked, the final state, and all ack/nack outcomes
issued during the session. -/
structure ConsumeResult where
  error : Option String
  handled : List Message
  final : GCPInfo
  outcomes : List (Message × Outcome)

/-- One handler invocation folded over the session state. -/
def handleMessage (acc : GCPInfo × List (Message × Outcome)) (m : Message) :
    GCPInfo × List (Message × Outcome) :=
  let r := consumeStep acc.1 m
  (r.1, acc.2 ++ r.2)

/-- `func (gcpinfo *GCPInfo) Consume() error`: create the pub/sub client,
open the sink file in write/append mode, install a fresh buffered writer,
then `Subscription.Receive` with a context that expires at
`now + Maxwaittime * time.Minute`: the handler runs exactly for the
deliveries that arrive before the deadline (the context model of
`context.WithTimeout`), and `Receive`'s own error is surfaced last. -/
def Consume (g : GCPInfo) (env : ConsumeEnv) : ConsumeResult :=
  if !env.clientOk then
    { error := some errPubsubClient, handled := [], final := g, outcomes := [] }
  else
    match openFileWronlyAppend env.files (sinkPath g) with
    | none =>
      { error := some errOpenSink, handled := [], final := g, outcomes := [] }
    | some _ =>
      let g2 := { g with writer :=
        { ok := env.writeOk, calls := 0, buf := "", flushed := 0 } }
      let dl := env.now + g2.Worker.Maxwaittime * minuteNs
      let delivered := (env.arrivals.filter (fun a => a.1 < dl)).map Prod.snd
      let r := delivered.foldl handleMessage (g2, [])
      { error := if env.receiveErr then some errReceive else none
        handled := delivered
        final := r.1
        outcomes := r.2 }

/-- The record layout written by the flush loop: each payload followed by
one newline, in batch order. -/
def renderBatch : List Message → String
  | [] => ""
  | m :: ms => (m.data ++ "\n") ++ renderBatch ms

def msgA : Message := { data := "a" }

def msgB : Message := { data := "b" }

def msgC : Message := { data := "c" }

/-- A writer whose second `WriteString` call fails. -/
def wFail1 : Writer := { ok := fun n => n ≠ 1, calls := 0, buf := "", flushed := 0 }

/-- A writer whose every `WriteString` call succeeds. -/
def wAllOk : Writer := { ok := fun _ => true, calls := 0, buf := "", flushed := 0 }

def workerEx : WorkerInfo :=
  { Message_log_path := "/var/log/worker", Worker_log_path := "/tmp/",
    Batchsize := 2, Maxwaittime := 10 }

/-- Three pending messages, threshold 2, second write will fail. -/
def gFail1 : GCPInfo :=
  { Project := "p", Topic := "t", Subscription := "sub", Keyfile := "k",
    Worker := workerEx,
    batch := { data := [msgA, msgB, msgC], cap := 2 }, writer := wFail1 }

/-- Three pending messages, all writes succeed. -/
def gAllOk : GCPInfo :=
  { Project := "p", Topic := "t", Subscription := "sub", Keyfile := "k",
    Worker := workerEx,
    batch := { data := [msgA, msgB, msgC], cap := 2 }, writer := wAllOk }

/-- An empty batch. -/
def gEmpty : GCPInfo :=
  { Project := "p", Topic := "t", Subscription := "sub", Keyfile := "k",
    Worker := workerEx,
    batch := { data := [], cap := 2 }, writer := wAllOk }

/-- Two pending messages with threshold 2: the next append exceeds it. -/
def gFull2 : GCPInfo :=
  { Project := "p", Topic := "t", Subscription := "sub", Keyfile := "k",
    Worker := workerEx,
    batch := { data := [msgA, msgB], cap := 2 }, writer := wAllOk }

def fsEmptyEx : FS := { dirs := [], files := [] }

/-- A parsed config whose batch_size and max wait time are zero. -/
def cfgZero : GCPConfig :=
  { Project := "p", Topic := "t", Subscription := "sub", Keyfile := "k",
    Message_log_path := "/var/log/worker", Worker_log_path := "",
    Batchsize := 0, Maxwaittime := 0 }

def envZero : NewClientEnv :=
  { content := some "cfg", parsed := some cfgZero, fs := fsEmptyEx,
    mkdirOk := true, createOk := true }

/-- The client `NewGCPclient` builds from `envZero`: note the batch
capacity 0 next to the defaulted threshold 3. -/
def gZero : GCPInfo :=
  { Project := "p", Topic := "t", Subscription := "sub", Keyfile := "k",
    Worker := { Message_log_path := "/var/log/worker",
                Worker_log_path := "/tmp/",
                Batchsize := 3, Maxwaittime := 10 },
    batch := { data := [], cap := 0 }, writer := nilWriter }

def envNoContent : NewClientEnv :=
  { content := none, parsed := none, fs := fsEmptyEx,
    mkdirOk := true, createOk := true }

def envBadJson : NewClientEnv :=
  { content := some "notjson", parsed := none, fs := fsEmptyEx,
    mkdirOk := true, createOk := true }

def envMkdirFail : NewClientEnv :=
  { content := some "cfg", parsed := some cfgZero, fs := fsEmptyEx,
    mkdirOk := false, createOk := true }

def cenvNoClient : ConsumeEnv :=
  { clientOk := false, writeOk := fun _ => true, files := [],
    arrivals := [], receiveErr := false, now := 0 }

def cenvNoFile : ConsumeEnv :=
  { clientOk := true, writeOk := fun _ => true, files := [],
    arrivals := [], receiveErr := false, now := 0 }

def cenvRecvErr : ConsumeEnv :=
  { clientOk := true, writeOk := fun _ => true,
    files := ["/var/log/worker/sub.log"],
    arrivals := [], receiveErr := true, now := 0 }

/-- Two deliveries: one inside the 10-minute window, one exactly at the
deadline. -/
def cenvArr : ConsumeEnv :=
  { clientOk := true, writeOk := fun _ => true,
    files := ["/var/log/worker/sub.log"],
    arrivals := [(5, msgA), (600000000000, msgB)],
    receiveErr := false, now := 0 }

def fsAfterCreate : FS :=
  { dirs := ["/var/log/worker"], files := ["/var/log/worker/sub.log"] }

/-! ### Theorems -/

theorem writeString_fst_ok (w : Writer) (s : String) :
    (writeString w s).1.ok = w.ok := by
  unfold writeString; split <;> rfl

theorem writeString_fst_calls (w : Writer) (s : String) :
    (writeString w s).1.calls = w.calls + 1 := by
  unfold writeString; split <;> rfl

theorem writeString_fst_flushed (w : Writer) (s : String) :
    (writeString w s).1.flushed = w.flushed := by
  unfold writeString; split <;> rfl

theorem writeString_snd (w : Writer) (s : String) :
    (writeString w s).2 = w.ok w.calls := by
  unfold writeString; split <;> simp_all

theorem writeString_fst_buf_true (w : Writer) (s : String)
    (h : w.ok w.calls = true) : (writeString w s).1.buf = w.buf ++ s := by
  unfold writeString; simp [h]

theorem writeString_fst_buf_false (w : Writer) (s : String)
    (h : w.ok w.calls = false) : (writeString w s).1.buf = w.buf := by
  unfold writeString; simp [h]

theorem flushLoop_map_fst (w : Writer) (ms : List Message) :
    ((flushLoop w ms).2).map Prod.fst = ms := by
  induction ms generalizing w with
  | nil => rfl
  | cons m ms ih => simp [flushLoop, ih]

theorem flushLoop_snd_length (w : Writer) (ms : List Message) :
    ((flushLoop w ms).2).length = ms.length := by
  have h := congrArg List.length (flushLoop_map_fst w ms)
  simpa using h

theorem flushLoop_fst_ok (w : Writer) (ms : List Message) :
    (flushLoop w ms).1.ok = w.ok := by
  induction ms generalizing w with
  | nil => rfl
  | cons m ms ih => simp [flushLoop, ih, writeString_fst_ok]

theorem flushLoop_fst_calls (w : Writer) (ms : List Message) :
    (flushLoop w ms).1.calls = w.calls + ms.length := by
  induction ms generalizing w with
  | nil => rfl
  | cons m ms ih =>
    simp only [flushLoop, ih, writeString_fst_calls, List.length_cons]
    omega

theorem flushLoop_fst_flushed (w : Writer) (ms : List Message) :
    (flushLoop w ms).1.flushed = w.flushed := by
  induction ms generalizing w with
  | nil => rfl
  | cons m ms ih => simp [flushLoop, ih, writeString_fst_flushed]

theorem flushLoop_snd_get (w : Writer) (ms : List Message) (i : Nat)
    (h : i < ((flushLoop w ms).2).length) :
    (((flushLoop w ms).2).get ⟨i, h⟩).2 =
      (if w.ok (w.calls + i) = true then Outcome.ack else Outcome.nack) := by
  induction ms generalizing w i with
  | nil => simp [flushLoop] at h
  | cons m ms ih =>
    cases i with
    | zero =>
      simp [flushLoop, writeString_snd]
    | succ j =>
      have hj : j < ((flushLoop (writeString w (m.data ++ "\n")).1 ms).2).length := by
        have hl := flushLoop_snd_length (writeString w (m.data ++ "\n")).1 ms
        have hl2 := flushLoop_snd_length w (m :: ms)
        simp [flushLoop] at h ⊢
        omega
      have hrec := ih (writeString w (m.data ++ "\n")).1 j hj
      rw [writeString_fst_ok, writeString_fst_calls] at hrec
      have harith : w.calls + 1 + j = w.calls + (j + 1) := by omega
      rw [harith] at hrec
      simpa [flushLoop] using hrec

theorem flushLoop_fst_buf (w : Writer) (ms : List Message)
    (hok : ∀ i, i < ms.length → w.ok (w.calls + i) = true) :
    (flushLoop w ms).1.buf = w.buf ++ renderBatch ms := by
  induction ms generalizing w with
  | nil => simp [flushLoop, renderBatch]
  | cons m ms ih =>
    have h0 : w.ok w.calls = true := by simpa using hok 0 (by simp)
    have hrest : ∀ i, i < ms.length →
        ((writeString w (m.data ++ "\n")).1).ok
          (((writeString w (m.data ++ "\n")).1).calls + i) = true := by
      intro i hi
      rw [writeString_fst_ok, writeString_fst_calls]
      have h1 := hok (i + 1) (by simpa using Nat.succ_lt_succ hi)
      have h2 : w.calls + 1 + i = w.calls + (i + 1) := by omega
      rw [h2]
      exact h1
    have hrec := ih (writeString w (m.data ++ "\n")).1 hrest
    rw [writeString_fst_buf_true w (m.data ++ "\n") h0] at hrec
    simp only [flushLoop, renderBatch]
    rw [hrec, String.append_assoc]

/-- C1: every message of the batch processed by `Flush` receives exactly
one outcome (the outcome list pairs the batch elements, in order and each
exactly once, with a single `Outcome`), the outcome is `ack` if and only
if the in-memory write of its serialized payload succeeded and `nack`
exactly otherwise, and a write failure for one message does not prevent
the remaining messages from being written: every message's write is
attempted (`calls` grows by the full batch length) regardless of
failures. -/
theorem C1_flush_ack_iff_write (g : GCPInfo) (i : Nat)
    (h : i < ((Flush g).2).length) :
    ((Flush g).2).map Prod.fst = g.batch.data ∧
    (Flush g).1.writer.calls = g.writer.calls + g.batch.data.length ∧
    ((((Flush g).2).get ⟨i, h⟩).2 = Outcome.ack ↔
      g.writer.ok (g.writer.calls + i) = true) ∧
    ((((Flush g).2).get ⟨i, h⟩).2 = Outcome.nack ↔
      g.writer.ok (g.writer.calls + i) = false) := by
  have h2 : i < ((flushLoop g.writer g.batch.data).2).length := by
    simpa [Flush] using h
  have hget := flushLoop_snd_get g.writer g.batch.data i h2
  refine ⟨by simpa [Flush] using flushLoop_map_fst g.writer g.batch.data,
    by simp [Flush, writerFlush, flushLoop_fst_calls], ?_, ?_⟩ <;>
    cases hv : g.writer.ok (g.writer.calls + i) <;>
      simp [hv] at hget <;> simp [Flush, hget, hv]

theorem C1_flush_ack_iff_write_witness :
    ((Flush gFail1).2).map Prod.fst = gFail1.batch.data ∧
    (Flush gFail1).1.writer.calls =
      gFail1.writer.calls + gFail1.batch.data.length ∧
    ((((Flush gFail1).2).get ⟨1, by decide⟩).2 = Outcome.ack ↔
      gFail1.writer.ok (gFail1.writer.calls + 1) = true) ∧
    ((((Flush gFail1).2).get ⟨1, by decide⟩).2 = Outcome.nack ↔
      gFail1.writer.ok (gFail1.writer.calls + 1) = false) :=
  C1_flush_ack_iff_write gFail1 1 (by decide)

/-- C3: after `Flush` returns, the batch is empty with capacity
reservation `int(Batchsize)`, and the sink writer's flush-to-storage ran
exactly once, for every starting state (so regardless of per-message write
failures). -/
theorem C3_flush_resets_batch (g : GCPInfo) :
    (Flush g).1.batch.data = [] ∧
    (Flush g).1.batch.cap = g.Worker.Batchsize ∧
    (Flush g).1.writer.flushed = g.writer.flushed + 1 := by
  refine ⟨rfl, rfl, ?_⟩
  simp [Flush, writerFlush, flushLoop_fst_flushed]

/-- C4: when the writes succeed, `Flush` appends to the sink buffer the
batch payloads as consecutive records, in batch order, each payload
followed by one newline (`renderBatch`). -/
theorem C4_flush_writes_in_order (g : GCPInfo)
    (hok : ∀ i, i < g.batch.data.length →
      g.writer.ok (g.writer.calls + i) = true) :
    (Flush g).1.writer.buf = g.writer.buf ++ renderBatch g.batch.data := by
  have hb := flushLoop_fst_buf g.writer g.batch.data hok
  simpa [Flush, writerFlush] using hb

theorem C4_flush_writes_in_order_witness :
    (Flush gAllOk).1.writer.buf =
      gAllOk.writer.buf ++ renderBatch gAllOk.batch.data :=
  C4_flush_writes_in_order gAllOk (fun _ _ => rfl)

/-- C7: flushing an empty batch issues no acknowledge/reject outcomes,
attempts no write and adds nothing to the sink buffer, still runs the sink
buffer's flush-to-storage once, and leaves the batch empty; running
`Flush` again from the resulting state again yields no outcomes and an
empty batch. -/
theorem C7_flush_empty_noop (g : GCPInfo) (h : g.batch.data = []) :
    (Flush g).2 = [] ∧
    (Flush g).1.writer.buf = g.writer.buf ∧
    (Flush g).1.writer.calls = g.writer.calls ∧
    (Flush g).1.writer.flushed = g.writer.flushed + 1 ∧
    (Flush g).1.batch.data = [] ∧
    (Flush ((Flush g).1)).2 = [] ∧
    (Flush ((Flush g).1)).1.batch.data = [] := by
  simp [Flush, h, flushLoop, writerFlush, mkBatch]

theorem C7_flush_empty_noop_witness :
    (Flush gEmpty).2 = [] ∧
    (Flush gEmpty).1.writer.buf = gEmpty.writer.buf ∧
    (Flush gEmpty).1.writer.calls = gEmpty.writer.calls ∧
    (Flush gEmpty).1.writer.flushed = gEmpty.writer.flushed + 1 ∧
    (Flush gEmpty).1.batch.data = [] ∧
    (Flush ((Flush gEmpty).1)).2 = [] ∧
    (Flush ((Flush gEmpty).1)).1.batch.data = [] :=
  C7_flush_empty_noop gEmpty rfl

theorem consumeStep_flush_eq (g : GCPInfo) (m : Message)
    (h : g.batch.data.length + 1 > g.Worker.Batchsize) :
    consumeStep g m = Flush { g with batch := batchAppend g.batch m } := by
  simp only [consumeStep]
  split
  · rfl
  · rename_i hc
    simp only [batchAppend] at hc
    simp at hc
    omega

theorem consumeStep_no_flush_eq (g : GCPInfo) (m : Message)
    (h : ¬ (g.batch.data.length + 1 > g.Worker.Batchsize)) :
    consumeStep g m = ({ g with batch := batchAppend g.batch m }, []) := by
  simp only [consumeStep]
  split
  · rename_i hc
    simp only [batchAppend] at hc
    simp at hc
    omega
  · rfl

/-- Folding the handler over messages that never make the batch exceed
the threshold: the batch grows in order, no flush happens, no outcome is
issued. -/
theorem consumeRun_no_flush (ms : List Message) (g : GCPInfo)
    (o : List (Message × Outcome))
    (h : g.batch.data.length + ms.length ≤ g.Worker.Batchsize) :
    (ms.foldl handleMessage (g, o)).1.batch.data = g.batch.data ++ ms ∧
    (ms.foldl handleMessage (g, o)).1.writer = g.writer ∧
    (ms.foldl handleMessage (g, o)).2 = o := by
  induction ms generalizing g o with
  | nil => simp
  | cons m ms ih =>
    have hnf : ¬ (g.batch.data.length + 1 > g.Worker.Batchsize) := by
      simp only [List.length_cons] at h
      omega
    have hstep : handleMessage (g, o) m =
        ((consumeStep g m).1, o ++ (consumeStep g m).2) := rfl
    have hrec := ih { g with batch := batchAppend g.batch m } o
      (by simp [batchAppend]; simp only [List.length_cons] at h; omega)
    simp only [List.foldl_cons, hstep, consumeStep_no_flush_eq g m hnf,
      List.append_nil]
    refine ⟨?_, hrec.2.1, hrec.2.2⟩
    rw [hrec.1]
    simp [batchAppend]

/-- C2: for the receive handler, a flush is triggered if and only if the
post-append batch size strictly exceeds the threshold: when
`len + 1 > Batchsize` the step flushes (the batch is reset to empty, the
sink buffer flush runs, and every appended message receives an outcome),
when `len + 1 ≤ Batchsize` nothing is flushed and the message just sits
appended; consequently a run of up to `Batchsize` appends from an empty
batch leaves all of them unflushed. -/
theorem C2_flush_iff_exceeds_threshold (g : GCPInfo) (m : Message)
    (ms : List Message) :
    (g.batch.data.length + 1 > g.Worker.Batchsize →
      (consumeStep g m).1.batch.data = [] ∧
      (consumeStep g m).1.writer.flushed = g.writer.flushed + 1 ∧
      ((consumeStep g m).2).map Prod.fst = g.batch.data ++ [m]) ∧
    (g.batch.data.length + 1 ≤ g.Worker.Batchsize →
      (consumeStep g m).1.batch.data = g.batch.data ++ [m] ∧
      (consumeStep g m).1.writer.flushed = g.writer.flushed ∧
      (consumeStep g m).2 = []) ∧
    (g.batch.data = [] → ms.length ≤ g.Worker.Batchsize →
      (ms.foldl handleMessage (g, [])).1.batch.data = ms ∧
      (ms.foldl handleMessage (g, [])).1.writer.flushed = g.writer.flushed) := by
  refine ⟨?_, ?_, ?_⟩
  · intro h
    rw [consumeStep_flush_eq g m h]
    refine ⟨rfl, ?_, ?_⟩
    · simp [Flush, writerFlush, flushLoop_fst_flushed]
    · simpa [Flush, batchAppend] using
        flushLoop_map_fst g.writer (g.batch.data ++ [m])
  · intro h
    rw [consumeStep_no_flush_eq g m (by omega)]
    exact ⟨rfl, rfl, rfl⟩
  · intro h1 h2
    have hrun := consumeRun_no_flush ms g [] (by rw [h1]; simpa using h2)
    refine ⟨?_, by rw [hrun.2.1]⟩
    rw [hrun.1, h1]
    simp

theorem C2_flush_iff_exceeds_threshold_witness :
    ((consumeStep gFull2 msgC).1.batch.data = [] ∧
     (consumeStep gFull2 msgC).1.writer.flushed = gFull2.writer.flushed + 1 ∧
     ((consumeStep gFull2 msgC).2).map Prod.fst = gFull2.batch.data ++ [msgC]) ∧
    ((consumeStep gEmpty msgA).1.batch.data = gEmpty.batch.data ++ [msgA] ∧
     (consumeStep gEmpty msgA).1.writer.flushed = gEmpty.writer.flushed ∧
     (consumeStep gEmpty msgA).2 = []) ∧
    (([msgA, msgB].foldl handleMessage (gEmpty, [])).1.batch.data =
        [msgA, msgB] ∧
     ([msgA, msgB].foldl handleMessage (gEmpty, [])).1.writer.flushed =
        gEmpty.writer.flushed) :=
  ⟨(C2_flush_iff_exceeds_threshold gFull2 msgC []).1 (by decide),
   (C2_flush_iff_exceeds_threshold gEmpty msgA []).2.1 (by decide),
   (C2_flush_iff_exceeds_threshold gEmpty msgA [msgA, msgB]).2.2 rfl
     (by decide)⟩

theorem NewGCPclient_success (env : NewClientEnv) (cfg : GCPConfig)
    (g : GCPInfo) (h1 : env.parsed = some cfg)
    (h2 : (NewGCPclient env).client = some g) :
    g.batch.data = [] ∧ g.batch.cap = cfg.Batchsize ∧
    g.Worker.Batchsize = (if cfg.Batchsize = 0 then 3 else cfg.Batchsize) ∧
    g.Worker.Maxwaittime =
      (if cfg.Maxwaittime = 0 then 10 else cfg.Maxwaittime) ∧
    g.Worker.Message_log_path = cfg.Message_log_path ∧
    g.Subscription = cfg.Subscription := by
  rcases hc : env.content with _ | c
  · simp [NewGCPclient, hc] at h2
  rcases hcr : CreateMessageLogFiles env.fs cfg.Message_log_path
      cfg.Subscription env.mkdirOk env.createOk with e | fs2
  · simp [NewGCPclient, hc, h1, hcr] at h2
  · simp [NewGCPclient, hc, h1, hcr] at h2
    subst h2
    exact ⟨rfl, rfl, rfl, rfl, rfl, rfl⟩

theorem CreateMessageLogFiles_ok_mem (fs : FS) (lp fn : String)
    (mk cr : Bool) (fs2 : FS)
    (h : CreateMessageLogFiles fs lp fn mk cr = Except.ok fs2) :
    (lp ++ "/" ++ fn ++ ".log") ∈ fs2.files := by
  unfold CreateMessageLogFiles at h
  cases mk with
  | false => simp at h
  | true =>
    by_cases hmem : (lp ++ "/" ++ fn ++ ".log") ∈ fs.files
    · simp [hmem] at h
      rw [← h]
      exact hmem
    · cases cr with
      | false => simp [hmem] at h
      | true =>
        simp [hmem] at h
        rw [← h]
        simp

theorem NewGCPclient_creates_sink (env : NewClientEnv) (g : GCPInfo)
    (h2 : (NewGCPclient env).client = some g) :
    sinkPath g ∈ (NewGCPclient env).fs.files := by
  rcases hc : env.content with _ | c
  · simp [NewGCPclient, hc] at h2
  rcases hp : env.parsed with _ | cfg
  · simp [NewGCPclient, hc, hp] at h2
  rcases hcr : CreateMessageLogFiles env.fs cfg.Message_log_path
      cfg.Subscription env.mkdirOk env.createOk with e | fs2
  · simp [NewGCPclient, hc, hp, hcr] at h2
  · have hmem := CreateMessageLogFiles_ok_mem env.fs cfg.Message_log_path
      cfg.Subscription env.mkdirOk env.createOk fs2 hcr
    simp only [NewGCPclient, hc, hp, hcr] at h2 ⊢
    rcases h2 with h2
    simp at h2
    subst h2
    simpa [sinkPath] using hmem

theorem Consume_handled_mem (g : GCPInfo) (cenv : ConsumeEnv) (m : Message)
    (h : m ∈ (Consume g cenv).handled) :
    ∃ t, (t, m) ∈ cenv.arrivals ∧
      t < cenv.now + g.Worker.Maxwaittime * minuteNs := by
  by_cases hck : cenv.clientOk
  · rcases ho : openFileWronlyAppend cenv.files (sinkPath g) with _ | u
    · simp [Consume, hck, ho] at h
    · have hh : m ∈ (cenv.arrivals.filter
          (fun a => a.1 < cenv.now + g.Worker.Maxwaittime * minuteNs)).map
            Prod.snd := by
        simpa [Consume, hck, ho] using h
      rcases List.mem_map.mp hh with ⟨a, ha, hm⟩
      have hf := List.mem_filter.mp ha
      refine ⟨a.1, ?_, by simpa using hf.2⟩
      rw [← hm]
      exact hf.1
  · simp [Consume, hck] at h

/-- C5: the construction errors (config unreadable, config JSON invalid,
message log file uncreatable) and the session errors (pub/sub client
unavailable, sink file unopenable, receive failure) are pairwise distinct
descriptive values, each failure mode yields its designated error, and on
a fatal-to-session error (client creation or sink open failure) the
receive handler is never invoked. -/
theorem C5_distinct_errors_no_activation (env : NewClientEnv) (g : GCPInfo)
    (cenv : ConsumeEnv) :
    List.Pairwise (fun a b => a ≠ b)
      [errReadConfig, errUnmarshal, errCreateLogFiles,
       errPubsubClient, errOpenSink, errReceive] ∧
    (env.content = none → (NewGCPclient env).err = some errReadConfig) ∧
    (env.content.isSome = true → env.parsed = none →
      (NewGCPclient env).err = some errUnmarshal) ∧
    (∀ cfg e, env.parsed = some cfg → env.content.isSome = true →
      CreateMessageLogFiles env.fs cfg.Message_log_path cfg.Subscription
        env.mkdirOk env.createOk = Except.error e →
      (NewGCPclient env).err = some errCreateLogFiles) ∧
    (cenv.clientOk = false →
      (Consume g cenv).error = some errPubsubClient ∧
      (Consume g cenv).handled = []) ∧
    (cenv.clientOk = true → sinkPath g ∉ cenv.files →
      (Consume g cenv).error = some errOpenSink ∧
      (Consume g cenv).handled = []) ∧
    (cenv.clientOk = true → sinkPath g ∈ cenv.files →
      cenv.receiveErr = true → (Consume g cenv).error = some errReceive) := by
  refine ⟨?_, ?_, ?_, ?_, ?_, ?_, ?_⟩
  · decide
  · intro h
    simp [NewGCPclient, h]
  · intro h1 h2
    obtain ⟨c, hc⟩ := Option.isSome_iff_exists.mp h1
    simp [NewGCPclient, hc, h2]
  · intro cfg e h1 h2 h3
    obtain ⟨c, hc⟩ := Option.isSome_iff_exists.mp h2
    simp [NewGCPclient, hc, h1, h3]
  · intro h
    exact ⟨by simp [Consume, h], by simp [Consume, h]⟩
  · intro h1 h2
    exact ⟨by simp [Consume, openFileWronlyAppend, h1, h2],
      by simp [Consume, openFileWronlyAppend, h1, h2]⟩
  · intro h1 h2 h3
    simp [Consume, openFileWronlyAppend, h1, h2, h3]

theorem C5_distinct_errors_no_activation_witness :
    List.Pairwise (fun a b => a ≠ b)
      [errReadConfig, errUnmarshal, errCreateLogFiles,
       errPubsubClient, errOpenSink, errReceive] ∧
    (NewGCPclient envNoContent).err = some errReadConfig ∧
    (NewGCPclient envBadJson).err = some errUnmarshal ∧
    (NewGCPclient envMkdirFail).err = some errCreateLogFiles ∧
    ((Consume gZero cenvNoClient).error = some errPubsubClient ∧
      (Consume gZero cenvNoClient).handled = []) ∧
    ((Consume gZero cenvNoFile).error = some errOpenSink ∧
      (Consume gZero cenvNoFile).handled = []) ∧
    (Consume gZero cenvRecvErr).error = some errReceive :=
  ⟨(C5_distinct_errors_no_activation envNoContent gZero cenvNoClient).1,
   (C5_distinct_errors_no_activation envNoContent gZero cenvNoClient).2.1 rfl,
   (C5_distinct_errors_no_activation envBadJson gZero cenvNoClient).2.2.1
     rfl rfl,
   (C5_distinct_errors_no_activation envMkdirFail gZero
     cenvNoClient).2.2.2.1 cfgZero errMkdir rfl rfl rfl,
   (C5_distinct_errors_no_activation envNoContent gZero
     cenvNoClient).2.2.2.2.1 rfl,
   (C5_distinct_errors_no_activation envNoContent gZero
     cenvNoFile).2.2.2.2.2.1 rfl (by decide),
   (C5_distinct_errors_no_activation envNoContent gZero
     cenvRecvErr).2.2.2.2.2.2 rfl (by decide) rfl⟩

/-- C6 counterexample: with configured batch_size 0, `NewGCPclient`
builds the batch (capacity 0) before applying the default, so the client
comes back with threshold 3 but an initial capacity reservation of 0 —
the claimed "capacity equal to the defaulted threshold" is false. -/
theorem C6_counterexample_capacity_zero :
    (NewGCPclient envZero).client = some gZero ∧
    gZero.batch.data = [] ∧
    gZero.Worker.Batchsize = 3 ∧
    gZero.batch.cap = 0 ∧
    ¬ gZero.batch.cap = gZero.Worker.Batchsize :=
  ⟨rfl, rfl, rfl, rfl, by decide⟩

/-- C6 amended: the batch is created empty with capacity reservation
equal to the raw configured batch_size (the `make` runs before the
default is applied), while the stored threshold is the configured value
defaulted to 3 when zero; the two agree exactly when the configured value
is nonzero. -/
theorem C6_amended_batch_capacity (env : NewClientEnv) (cfg : GCPConfig)
    (g : GCPInfo) (h1 : env.parsed = some cfg)
    (h2 : (NewGCPclient env).client = some g) :
    g.batch.data = [] ∧
    g.batch.cap = cfg.Batchsize ∧
    g.Worker.Batchsize = (if cfg.Batchsize = 0 then 3 else cfg.Batchsize) :=
  ⟨(NewGCPclient_success env cfg g h1 h2).1,
   (NewGCPclient_success env cfg g h1 h2).2.1,
   (NewGCPclient_success env cfg g h1 h2).2.2.1⟩

theorem C6_amended_batch_capacity_witness :
    gZero.batch.data = [] ∧
    gZero.batch.cap = cfgZero.Batchsize ∧
    gZero.Worker.Batchsize =
      (if cfgZero.Batchsize = 0 then 3 else cfgZero.Batchsize) :=
  C6_amended_batch_capacity envZero cfgZero gZero rfl rfl

/-- C8: a constructed client stores the configured maximum wait time with
the zero default of 10, and a session handles a message only if it
arrived strictly before `now + Maxwaittime * time.Minute`; deliveries at
or after the deadline never reach the handler. -/
theorem C8_session_deadline (env : NewClientEnv) (cfg : GCPConfig)
    (g : GCPInfo) (h1 : env.parsed = some cfg)
    (h2 : (NewGCPclient env).client = some g) :
    g.Worker.Maxwaittime =
      (if cfg.Maxwaittime = 0 then 10 else cfg.Maxwaittime) ∧
    ∀ (cenv : ConsumeEnv) (m : Message), m ∈ (Consume g cenv).handled →
      ∃ t, (t, m) ∈ cenv.arrivals ∧
        t < cenv.now + g.Worker.Maxwaittime * minuteNs :=
  ⟨(NewGCPclient_success env cfg g h1 h2).2.2.2.1,
   fun cenv m h => Consume_handled_mem g cenv m h⟩

theorem C8_session_deadline_witness :
    gZero.Worker.Maxwaittime =
      (if cfgZero.Maxwaittime = 0 then 10 else cfgZero.Maxwaittime) ∧
    (∃ t, (t, msgA) ∈ cenvArr.arrivals ∧
      t < cenvArr.now + gZero.Worker.Maxwaittime * minuteNs) :=
  ⟨(C8_session_deadline envZero cfgZero gZero rfl rfl).1,
   (C8_session_deadline envZero cfgZero gZero rfl rfl).2 cenvArr msgA
     (by decide)⟩

/-- C9: whenever `NewGCPclient` reports an error it returns a nil client
pointer. -/
theorem C9_error_implies_nil_client (env : NewClientEnv)
    (h : (NewGCPclient env).err.isSome = true) :
    (NewGCPclient env).client = none := by
  rcases hc : env.content with _ | c
  · simp [NewGCPclient, hc]
  rcases hp : env.parsed with _ | cfg
  · simp [NewGCPclient, hc, hp]
  rcases hcr : CreateMessageLogFiles env.fs cfg.Message_log_path
      cfg.Subscription env.mkdirOk env.createOk with e | fs2
  · simp [NewGCPclient, hc, hp, hcr]
  · simp [NewGCPclient, hc, hp, hcr] at h

theorem C9_error_implies_nil_client_witness :
    (NewGCPclient envNoContent).client = none :=
  C9_error_implies_nil_client envNoContent rfl

/-- C10: the sink is opened with write/append flags only, so the open
fails exactly when the file does not already exist (and `Consume` then
reports the sink-unopenable error); the file exists after a successful
`CreateMessageLogFiles`, which `NewGCPclient` runs, so a successfully
constructed client's sink path is present on the filesystem it hands
back. -/
theorem C10_sink_open_no_create (cenv : ConsumeEnv) (g : GCPInfo)
    (env : NewClientEnv) (g2 : GCPInfo) :
    (∀ (files : List String) (path : String),
      openFileWronlyAppend files path = none ↔ path ∉ files) ∧
    (cenv.clientOk = true → sinkPath g ∉ cenv.files →
      (Consume g cenv).error = some errOpenSink) ∧
    (∀ (fs : FS) (lp fn : String) (mk cr : Bool) (fs2 : FS),
      CreateMessageLogFiles fs lp fn mk cr = Except.ok fs2 →
      (lp ++ "/" ++ fn ++ ".log") ∈ fs2.files) ∧
    ((NewGCPclient env).client = some g2 →
      sinkPath g2 ∈ (NewGCPclient env).fs.files) := by
  refine ⟨?_, ?_, ?_, ?_⟩
  · intro files path
    by_cases hm : path ∈ files <;> simp [openFileWronlyAppend, hm]
  · intro h1 h2
    simp [Consume, openFileWronlyAppend, h1, h2]
  · intro fs lp fn mk cr fs2 h
    exact CreateMessageLogFiles_ok_mem fs lp fn mk cr fs2 h
  · intro h2
    exact NewGCPclient_creates_sink env g2 h2

theorem C10_sink_open_no_create_witness :
    (openFileWronlyAppend [] "/var/log/worker/sub.log" = none ↔
      "/var/log/worker/sub.log" ∉ ([] : List String)) ∧
    (Consume gZero cenvNoFile).error = some errOpenSink ∧
    ("/var/log/worker" ++ "/" ++ "sub" ++ ".log") ∈ fsAfterCreate.files ∧
    sinkPath gZero ∈ (NewGCPclient envZero).fs.files :=
  ⟨(C10_sink_open_no_create cenvNoFile gZero envZero gZero).1 []
     "/var/log/worker/sub.log",
   (C10_sink_open_no_create cenvNoFile gZero envZero gZero).2.1 rfl
     (by decide),
   (C10_sink_open_no_create cenvNoFile gZero envZero gZero).2.2.1
     fsEmptyEx "/var/log/worker" "sub" true true fsAfterCreate rfl,
   (C10_sink_open_no_create cenvNoFile gZero envZero gZero).2.2.2 rfl⟩

end LogWorker
